import Mathlib

/-!
Shallow embedding of `march.py`, a launcher that replaces the current process
with a machine-architecture-optimised variant of the requested program when
one exists.  Filesystem state and the outcome of the final `execv` call are
abstracted as boolean oracles in a `Sys` record; the path algebra
(`posixpath.split`, `join`, `normpath`, ...) and the program logic
(`which`, `run`, `main`) are translated function by function from the source.
Strings are handled at the code-point level, matching Python `str` semantics
for the ASCII inputs involved.
-/

namespace March

/-- Python `s.startswith(pre)` (code-point level). -/
def strStartsWith (s pre : String) : Bool :=
  pre.data.isPrefixOf s.data

/-- Python `s.endswith(suf)` (code-point level). -/
def strEndsWith (s suf : String) : Bool :=
  suf.data.isSuffixOf s.data

/-- Python `s[n:]` (code-point level). -/
def strDrop (s : String) (n : Nat) : String :=
  String.mk (s.data.drop n)

/-- Helper for `splitSep`: accumulates the current field (reversed). -/
def splitSepAux (sep : Char) : List Char → List Char → List String
  | [], cur => [String.mk cur.reverse]
  | c :: rest, cur =>
    if c = sep then String.mk cur.reverse :: splitSepAux sep rest []
    else splitSepAux sep rest (c :: cur)

/-- Python `s.split(sep)` for a one-character separator:
`"".split(sep) == [""]`, `":".split(":") == ["", ""]`, etc. -/
def splitSep (sep : Char) (s : String) : List String :=
  splitSepAux sep s.data []

/-- The characters after the last `'/'` of the list (the whole list when it
contains no `'/'`). -/
def afterLastSlash (cs : List Char) : List Char :=
  cs.foldl (fun acc c => if c = '/' then [] else acc ++ [c]) []

/-- Whether the list consists only of `'/'` characters (true for `[]`). -/
def allSlashes (l : List Char) : Bool :=
  l.all (fun c => c = '/')

/-- Python `s.rstrip('/')` on a character list. -/
def rstripSlash (l : List Char) : List Char :=
  (l.reverse.dropWhile (fun c => c = '/')).reverse

/-- `posixpath.split`: split at the position after the last `'/'`; the head
keeps trailing slashes only when it consists entirely of slashes. -/
def psplit (p : String) : String × String :=
  let cs := p.data
  let tl := afterLastSlash cs
  let hd := cs.take (cs.length - tl.length)
  let hd2 := if allSlashes hd then hd else rstripSlash hd
  (String.mk hd2, String.mk tl)

/-- `posixpath.dirname`: the head component of `posixpath.split`. -/
def dirname (p : String) : String :=
  (psplit p).1

/-- `posixpath.join` restricted to two arguments, the only arity the source
uses: an absolute second component replaces the first; otherwise a `'/'` is
inserted unless the first component is empty or already ends in `'/'`. -/
def pjoin (a b : String) : String :=
  if strStartsWith b "/" then b
  else if a = "" ∨ strEndsWith a "/" then a ++ b
  else a ++ "/" ++ b

/-- `posixpath.normcase`: the identity on POSIX. -/
def normcase (s : String) : String := s

/-- `posixpath.isabs`. -/
def isAbs (s : String) : Bool :=
  strStartsWith s "/"

/-- Python `'/'.join(l)`. -/
def interSlash : List String → String
  | [] => ""
  | [s] => s
  | s :: rest => s ++ "/" ++ interSlash rest

/-- `posixpath.normpath`: collapse empty and `"."` components, resolve
`".."` lexically, and preserve a leading `"//"` (exactly two slashes). -/
def normpath (p : String) : String :=
  if p = "" then "."
  else
    let islashes : Nat :=
      if strStartsWith p "/" then
        if strStartsWith p "//" && !(strStartsWith p "///") then 2 else 1
      else 0
    let comps := splitSep '/' p
    let newComps := comps.foldl
      (fun acc comp =>
        if comp = "" ∨ comp = "." then acc
        else if comp ≠ ".." ∨ (islashes = 0 ∧ acc = []) ∨ acc.getLast? = some ".." then
          acc ++ [comp]
        else acc.dropLast)
      []
    let res := String.mk (List.replicate islashes '/') ++ interSlash newComps
    if res = "" then "." else res

/-- `posixpath.abspath` with the working directory made explicit. -/
def abspath (cwd p : String) : String :=
  normpath (if isAbs p then p else pjoin cwd p)

/-- `os.defpath` on POSIX (Python 3). -/
def os_defpath : String := "/bin:/usr/bin"

/-- Abstraction of the ambient system state the program consults.
`fexists p` models `os.path.exists(p)`; `xok p` models
`os.access(p, os.X_OK)` (note `os.F_OK | os.X_OK == os.X_OK` since
`F_OK == 0`, so every access check in the source is this one call);
`pathEnv` is `os.environ.get("PATH")`; `csPath` is the behaviour of
`os.confstr("CS_PATH")` — `none` when the call raises, `some none` when it
returns `None`, `some (some s)` when it returns `s`; `cwd` is
`os.getcwd()`; `execOK t` tells whether `os.execv(t, args)` succeeds
(replacing the process) rather than raising. -/
structure Sys where
  fexists : String → Bool
  xok : String → Bool
  pathEnv : Option String
  csPath : Option (Option String)
  cwd : String
  execOK : String → Bool

/-- `_access_check(fn, mode)` with the default mode `F_OK | X_OK`:
`os.path.exists(fn) and os.access(fn, mode)`. -/
def accessCheck (sys : Sys) (fn : String) : Bool :=
  sys.fexists fn && sys.xok fn

/-- The search loop of `which`: walk the directory list in order, keep a set
of already-seen `normcase`d directories, and return the first join that
passes the access check. -/
def whichLoop (sys : Sys) (cmd : String) : List String → List String → Option String
  | [], _ => none
  | d :: rest, seen =>
    let normdir := normcase d
    if normdir ∈ seen then whichLoop sys cmd rest seen
    else
      if accessCheck sys (pjoin d cmd) then some (pjoin d cmd)
      else whichLoop sys cmd rest (normdir :: seen)

/-- The default search path used when `which` is called with `path=None`:
`os.environ.get("PATH")`, else `os.confstr("CS_PATH")`, falling back to
`os.defpath` only when `confstr` raises. The overall `Option` is the Python
value of the local `path` (`none` = Python `None`). -/
def defaultPath (sys : Sys) : Option String :=
  match sys.pathEnv with
  | some p => some p
  | none =>
    match sys.csPath with
    | none => some os_defpath
    | some r => r

/-- `which(cmd, mode=F_OK|X_OK, path=path?)` from the source: a command with
a directory part is checked directly and returned verbatim; otherwise the
search-path string (argument, else default) is rejected when falsy, split on
`':'`, and scanned by `whichLoop`. -/
def which (sys : Sys) (cmd : String) (path? : Option String) : Option String :=
  if dirname cmd ≠ "" then
    if accessCheck sys cmd then some cmd else none
  else
    match (match path? with | some p => some p | none => defaultPath sys) with
    | none => none
    | some p =>
      if p = "" then none
      else whichLoop sys cmd (splitSep ':' p) []

/-- Python truthiness of an optional string: `None` and `""` are falsy. -/
def pyTruthy : Option String → Bool
  | none => false
  | some s => s ≠ ""

/-- Python `a or b` on optional strings: `a` when truthy, else `b`. -/
def pyOr (a b : Option String) : Option String :=
  if pyTruthy a then a else b

/-- The `/proc/cmdline` scan of `main`: the first token starting with
`"march="` yields everything after the prefix (`arg[6:]`), then `break`. -/
def scanKernelMarch : List String → Option String
  | [] => none
  | a :: rest =>
    if strStartsWith a "march=" then some (strDrop a 6)
    else scanKernelMarch rest

/-- Lines 197-200 of `run`: `prog = args[0]` is absolutised when directly
executable, otherwise handed to `which` with `path=None`. -/
def resolveProg (sys : Sys) (prog : String) : Option String :=
  if sys.xok prog then some (abspath sys.cwd prog)
  else which sys prog none

/-- Lines 203-206 of `run`: `pth, exe = split(prog)`;
`basepath, toppath = split(pth)`; `marchpath = join(basepath, toppath + '-' + march)`;
`marchprog = join(marchpath, exe)`. -/
def variantPath (prog march : String) : String :=
  let pe := psplit prog
  let bt := psplit pe.1
  let marchpath := pjoin bt.1 (bt.2 ++ "-" ++ march)
  pjoin marchpath pe.2

/-- The variant-path derivation in the spec's own words: split the path into
parent directory and filename, split the parent into grandparent and final
segment, form the variant directory as grandparent joined with
(final segment ++ "-" ++ tag), and the variant file as the variant directory
joined with the filename. -/
def variantPathSpec (p t : String) : String :=
  let fname := (psplit p).2
  let parent := (psplit p).1
  let seg := (psplit parent).2
  let gparent := (psplit parent).1
  let vdir := pjoin gparent (seg ++ "-" ++ t)
  pjoin vdir fname

/-- Which branch of `run`'s body after resolution is taken. -/
inductive TagPath where
  | variantTaken (mp : String)
  | variantMiss
  | noTag
  | unresolved
  deriving DecidableEq

/-- The branch structure of `run` (lines 201-216): `if prog:` tests Python
truthiness of the resolved value; with a truthy march tag the variant path is
checked with `exists and access(X_OK)`; otherwise the no-tag warning branch
is taken; a falsy `prog` reaches the verbatim-exec error branch. -/
def runBranch (sys : Sys) (march : Option String) (a0 : String) : TagPath :=
  if pyTruthy (resolveProg sys a0) then
    if pyTruthy march then
      let prog := (resolveProg sys a0).getD ""
      let mp := variantPath prog (march.getD "")
      if accessCheck sys mp then TagPath.variantTaken mp else TagPath.variantMiss
    else TagPath.noTag
  else TagPath.unresolved

/-- The value of `args[0]` at the `os.execv(args[0], args)` call: it is
rewritten only when an existing, executable variant was found. -/
def execTarget (sys : Sys) (march : Option String) (a0 : String) : String :=
  match runBranch sys march a0 with
  | TagPath.variantTaken mp => mp
  | _ => a0

/-- Outcome of `run`: either `execv` succeeded (the process image is
replaced; nothing returns) or it raised and `run` returns `ret = 127`. -/
inductive ExecResult where
  | replaced (target : String) (argv : List String)
  | notExec (ret : Nat) (target : String) (argv : List String)
  deriving DecidableEq

/-- The argument vector passed to `execv` in either outcome. -/
def ExecResult.argv : ExecResult → List String
  | ExecResult.replaced _ v => v
  | ExecResult.notExec _ _ v => v

/-- `run(args)` for `args = a0 :: rest`: compute
`march = gpar.march or gpar.kernel_march`, resolve, possibly rewrite
`args[0]`, and attempt `os.execv(args[0], args)`; on exception return 127. -/
def runResult (sys : Sys) (explicit kernel : Option String) (a0 : String)
    (rest : List String) : ExecResult :=
  let t := execTarget sys (pyOr explicit kernel) a0
  if sys.execOK t then ExecResult.replaced t (t :: rest)
  else ExecResult.notExec 127 t (t :: rest)

/-- Observable outcome of `main` after option parsing. -/
inductive MainOutcome where
  | replaced (target : String) (argv : List String)
  | exited (code : Nat)
  | crashed (exc : String)
  deriving DecidableEq

/-- `main` after option parsing, with `cmdline? = none` meaning
`open('/proc/cmdline')` raised.  In that case the `except` clause only logs
the exception and the local `cmdline` is never assigned, so the subsequent
`for arg in cmdline:` raises an uncaught `NameError` and the program dies
before `run` is ever called.  `interrupted` models a `KeyboardInterrupt`
raised during `run`, which `main` maps to return value 3. -/
def mainOutcome (sys : Sys) (explicit : Option String)
    (cmdline? : Option (List String)) (interrupted : Bool) (a0 : String)
    (rest : List String) : MainOutcome :=
  match cmdline? with
  | none => MainOutcome.crashed "NameError: cmdline"
  | some toks =>
    if interrupted then MainOutcome.exited 3
    else
      match runResult sys explicit (scanKernelMarch toks) a0 rest with
      | ExecResult.replaced t argv => MainOutcome.replaced t argv
      | ExecResult.notExec r _ _ => MainOutcome.exited r

/-- Concrete system: only `/usr/bin/prog` exists and is executable, `PATH`
is `/usr/bin`, and the final exec always fails. -/
def sysX : Sys where
  fexists := fun s => s = "/usr/bin/prog"
  xok := fun s => s = "/usr/bin/prog"
  pathEnv := some "/usr/bin"
  csPath := none
  cwd := "/cwd"
  execOK := fun _ => false

/-- Concrete system: only `./script` exists and is executable. -/
def sysC : Sys where
  fexists := fun s => s = "./script"
  xok := fun s => s = "./script"
  pathEnv := some ""
  csPath := none
  cwd := "/cwd"
  execOK := fun _ => false

/-- Concrete system: nothing exists, `PATH` is the empty string, exec always
fails. -/
def sysN : Sys where
  fexists := fun _ => false
  xok := fun _ => false
  pathEnv := some ""
  csPath := none
  cwd := "/cwd"
  execOK := fun _ => false

/-- Concrete system: only `/bin/sh` exists and is executable, `PATH` is
absent and `confstr("CS_PATH")` raises, so `os.defpath` applies. -/
def sysD : Sys where
  fexists := fun s => s = "/bin/sh"
  xok := fun s => s = "/bin/sh"
  pathEnv := none
  csPath := none
  cwd := "/cwd"
  execOK := fun _ => false

/-- Like `sysD` but with `PATH` set to the empty string. -/
def sysE : Sys where
  fexists := fun s => s = "/bin/sh"
  xok := fun s => s = "/bin/sh"
  pathEnv := some ""
  csPath := none
  cwd := "/cwd"
  execOK := fun _ => false

/-- Claim C1: the claim says a failure to read `/proc/cmdline` is logged and
never prevents the launch.  The code instead leaves the local `cmdline`
unassigned in that case and crashes with an uncaught `NameError` at
`for arg in cmdline:`, before any exec attempt: for every system state,
explicit tag, interrupt status and argument vector, an unreadable
boot-parameter source makes `main` terminate with the `NameError` crash. -/
theorem cmdline_unreadable_crashes (sys : Sys) (explicit : Option String)
    (b : Bool) (a0 : String) (rest : List String) :
    mainOutcome sys explicit none b a0 rest
      = MainOutcome.crashed "NameError: cmdline" := rfl

/-- Claim C2: over march tags as the spec defines them (non-empty or
absent, encoded as the hypothesis that the explicit tag is not `some ""`),
a supplied explicit tag is the effective tag regardless of the discovered
tag; an absent explicit tag makes the discovered tag effective; two absent
tags give an absent effective tag. -/
theorem march_precedence (e d : Option String) (h : e ≠ some "") :
    (∀ s, e = some s → pyOr e d = some s)
    ∧ (e = none → pyOr e d = d)
    ∧ (e = none → d = none → pyOr e d = none) := by
  refine ⟨?_, ?_, ?_⟩
  · intro s hs
    subst hs
    have hs' : s ≠ "" := fun hc => h (by rw [hc])
    simp [pyOr, pyTruthy, hs']
  · intro he; subst he; simp [pyOr, pyTruthy]
  · intro he hd; subst he; subst hd; simp [pyOr, pyTruthy]

/-- Witness for C2 at the concrete pair `(some "v3", some "v2")`. -/
theorem march_precedence_witness :
    pyOr (some "v3") (some "v2") = some "v3" :=
  (march_precedence (some "v3") (some "v2") (by decide)).1 "v3" rfl

/-- Counterexample to claim C3 as stated: with tag `v3`, the bare command
`prog` resolves to `/usr/bin/prog` and the variant `/usr/bin-v3/prog` does
not exist, yet the exec'd first element is the original token `"prog"` —
neither the resolved path nor the variant path, i.e. a third value. -/
theorem variant_keep_counterexample :
    resolveProg sysX "prog" = some "/usr/bin/prog"
    ∧ pyOr (some "v3") none = some "v3"
    ∧ (runResult sysX (some "v3") none "prog" []).argv = ["prog"]
    ∧ "prog" ≠ "/usr/bin/prog"
    ∧ "prog" ≠ variantPath "/usr/bin/prog" "v3" := by decide

/-- Claim C3 as amended: for every resolved path and present march tag, if
the derived variant file exists and is executable the first element of the
argument vector is rewritten to the variant path; if it does not, the
argument vector is left completely unchanged, so the first element keeps its
original value (the command token as invoked — which coincides with the
resolved path only when the token already was that path); the exec'd first
element is never any value other than the variant path or the original first
element, and in both cases the remaining elements and the argument count are
unchanged. -/
theorem variant_rewrite (sys : Sys) (t a0 prog : String) (ht : t ≠ "")
    (hp : prog ≠ "") (hres : resolveProg sys a0 = some prog) :
    (accessCheck sys (variantPath prog t) = true →
        execTarget sys (some t) a0 = variantPath prog t)
    ∧ (accessCheck sys (variantPath prog t) = false →
        execTarget sys (some t) a0 = a0)
    ∧ (∀ e k rest, (runResult sys e k a0 rest).argv
        = execTarget sys (pyOr e k) a0 :: rest)
    ∧ (∀ e k rest, ((runResult sys e k a0 rest).argv).length
        = (a0 :: rest).length) := by
  refine ⟨?_, ?_, ?_, ?_⟩
  · intro hc
    simp [execTarget, runBranch, hres, pyTruthy, hp, ht, hc]
  · intro hc
    simp [execTarget, runBranch, hres, pyTruthy, hp, ht, hc]
  · intro e k rest
    by_cases hx : sys.execOK (execTarget sys (pyOr e k) a0) = true <;>
      simp [runResult, ExecResult.argv, hx]
  · intro e k rest
    by_cases hx : sys.execOK (execTarget sys (pyOr e k) a0) = true <;>
      simp [runResult, ExecResult.argv, hx]

/-- Witness for the amended C3: in `sysX` the variant of `/usr/bin/prog`
for tag `v3` is missing, and the exec'd first element is the original token. -/
theorem variant_rewrite_witness :
    execTarget sysX (some "v3") "prog" = "prog" :=
  (variant_rewrite sysX "v3" "prog" "/usr/bin/prog" (by decide) (by decide)
    (by decide)).2.1 (by decide)

/-- Claim C4: the variant path is exactly
`join (join (grandparent p) (finalSegment p ++ "-" ++ t)) (filename p)` in
the split/join path algebra; it coincides with the derivation written in
the spec's own words; and it performs no normalisation (a `"."` component
of the input survives).  As a plain function of `(p, t)` it is pure and
deterministic: repeated calls with the same inputs are the same term. -/
theorem variant_path_derivation (p t : String) :
    variantPath p t
      = pjoin (pjoin (psplit (psplit p).1).1 ((psplit (psplit p).1).2 ++ "-" ++ t))
          (psplit p).2
    ∧ variantPath p t = variantPathSpec p t
    ∧ variantPath "/a/./b/prog" "v2" = "/a/./b-v2/prog" := by
  refine ⟨rfl, rfl, by decide⟩

/-- Claim C5: when resolution fails entirely (direct check and search both
fail, i.e. `resolveProg` yields `none`), the launcher still attempts the
process replacement with the literal, unmodified original argument vector,
its first element the original command token verbatim; the only outcomes
are a successful replacement with that vector or the 127 failure return. -/
theorem unresolved_exec_verbatim (sys : Sys) (e k : Option String)
    (a0 : String) (rest : List String) (h : resolveProg sys a0 = none) :
    runResult sys e k a0 rest = ExecResult.replaced a0 (a0 :: rest)
    ∨ runResult sys e k a0 rest = ExecResult.notExec 127 a0 (a0 :: rest) := by
  have ht : execTarget sys (pyOr e k) a0 = a0 := by
    simp [execTarget, runBranch, h, pyTruthy]
  by_cases hx : sys.execOK a0 = true
  · left; simp [runResult, ht, hx]
  · right; simp [runResult, ht, hx]

/-- Witness for C5: in `sysN` nothing resolves, and `run` on
`["ghost", "a"]` still execs that exact vector (here: fails with 127). -/
theorem unresolved_exec_verbatim_witness :
    runResult sysN none none "ghost" ["a"]
        = ExecResult.replaced "ghost" ["ghost", "a"]
    ∨ runResult sysN none none "ghost" ["a"]
        = ExecResult.notExec 127 "ghost" ["ghost", "a"] :=
  unresolved_exec_verbatim sysN none none "ghost" ["a"] (by decide)

/-- Counterexample to claim C6 as stated: for the command token
`"./script"` (which contains a directory separator) in a system where it
exists and is executable, `which` succeeds but returns the token verbatim —
not its absolute form. -/
theorem which_not_absolutized :
    which sysC "./script" none = some "./script"
    ∧ isAbs "./script" = false
    ∧ "./script" ≠ abspath sysC.cwd "./script" := by decide

/-- Claim C6 as amended: for every command token containing a directory
separator the resolver never consults the search path (the result is
independent of the path argument and of the search-path environment): it
checks only that token directly for existence and execute permission,
returning the token unchanged (not absolutized) on success and signalling
not-found otherwise. -/
theorem which_direct (sys : Sys) (cmd : String) (h : dirname cmd ≠ "") :
    (∀ path?, which sys cmd path?
        = if accessCheck sys cmd then some cmd else none)
    ∧ (∀ p q, which sys cmd p = which sys cmd q)
    ∧ (∀ pe ce cw, which { sys with pathEnv := pe, csPath := ce, cwd := cw } cmd none
        = which sys cmd none) := by
  have h1 : ∀ path?, which sys cmd path?
      = if accessCheck sys cmd then some cmd else none := by
    intro path?; simp [which, h]
  refine ⟨h1, ?_, ?_⟩
  · intro p q; rw [h1 p, h1 q]
  · intro pe ce cw
    have h2 : which { sys with pathEnv := pe, csPath := ce, cwd := cw } cmd none
        = if accessCheck { sys with pathEnv := pe, csPath := ce, cwd := cw } cmd
            then some cmd else none := by
      simp [which, h]
    rw [h1 none, h2]
    rfl

/-- Witness for the amended C6 at `./script` with a non-`None` path
argument, showing the search path is ignored and the token kept verbatim. -/
theorem which_direct_witness :
    which sysC "./script" (some "/usr/bin") = some "./script" :=
  ((which_direct sysC "./script" (by decide)).1 (some "/usr/bin")).trans (by decide)

/-- Claim C7: with a readable boot-parameter source, an interruption during
the launch window terminates with status 3, every failure of the process
replacement call terminates with status 127, and the two statuses are
distinct. -/
theorem exit_statuses (sys : Sys) (e : Option String) (toks : List String)
    (a0 : String) (rest : List String) :
    mainOutcome sys e (some toks) true a0 rest = MainOutcome.exited 3
    ∧ (sys.execOK (execTarget sys (pyOr e (scanKernelMarch toks)) a0) = false →
        mainOutcome sys e (some toks) false a0 rest = MainOutcome.exited 127)
    ∧ (3 : Nat) ≠ 127 := by
  refine ⟨rfl, ?_, by decide⟩
  intro hx
  simp [mainOutcome, runResult, hx]

/-- Witness for C7 in `sysN`, where exec always fails. -/
theorem exit_statuses_witness :
    mainOutcome sysN none (some []) false "ghost" [] = MainOutcome.exited 127
    ∧ mainOutcome sysN none (some []) true "ghost" [] = MainOutcome.exited 3 :=
  ⟨(exit_statuses sysN none [] "ghost" []).2.1 (by decide),
   (exit_statuses sysN none [] "ghost" []).1⟩

/-- Claim C8: for a bare command name, an empty `PATH` string yields no
matches at all, whereas an absent `PATH` falls back to the platform default
(`confstr("CS_PATH")` when available, else `os.defpath`) and searches it;
the concrete systems `sysD`/`sysE` show the two cases produce different
results, so they are not collapsed. -/
theorem which_empty_vs_default (sys : Sys) (cmd : String)
    (h : dirname cmd = "") :
    which { sys with pathEnv := some "" } cmd none = none
    ∧ which { sys with pathEnv := none, csPath := none } cmd none
        = whichLoop { sys with pathEnv := none, csPath := none } cmd
            (splitSep ':' os_defpath) []
    ∧ (∀ s, s ≠ "" →
        which { sys with pathEnv := none, csPath := some (some s) } cmd none
          = whichLoop { sys with pathEnv := none, csPath := some (some s) } cmd
              (splitSep ':' s) [])
    ∧ which sysD "sh" none = some "/bin/sh"
    ∧ which sysE "sh" none = none := by
  refine ⟨?_, ?_, ?_, by decide, by decide⟩
  · simp [which, h, defaultPath]
  · simp [which, h, defaultPath, os_defpath]
  · intro s hs; simp [which, h, defaultPath, hs]

/-- Witness for C8 at `sysD` (`PATH` absent, default applies and finds
`/bin/sh`) against `sysE` (`PATH` empty, nothing found). -/
theorem which_empty_vs_default_witness :
    which sysD "sh" none = some "/bin/sh" ∧ which sysE "sh" none = none :=
  ⟨(which_empty_vs_default sysD "sh" (by decide)).2.2.2.1,
   (which_empty_vs_default sysD "sh" (by decide)).2.2.2.2⟩

/-- The seen-set search loop returns the join of the first directory in
order passing the access check, provided everything already in the seen set
fails the check (dedup never changes the first match). -/
theorem whichLoop_find (sys : Sys) (cmd : String) (dirs : List String) :
    ∀ seen : List String,
      (∀ d ∈ seen, accessCheck sys (pjoin d cmd) = false) →
      whichLoop sys cmd dirs seen
        = (dirs.find? (fun d => accessCheck sys (pjoin d cmd))).map
            (fun d => pjoin d cmd) := by
  induction dirs with
  | nil => intro seen _; simp [whichLoop]
  | cons d rest ih =>
    intro seen hseen
    by_cases hm : d ∈ seen
    · have hd : accessCheck sys (pjoin d cmd) = false := hseen d hm
      have hstep : whichLoop sys cmd (d :: rest) seen
          = whichLoop sys cmd rest seen := by
        simp [whichLoop, normcase, hm]
      rw [hstep, ih seen hseen, List.find?_cons_of_neg _ (by simp [hd])]
    · by_cases hacc : accessCheck sys (pjoin d cmd) = true
      · have hstep : whichLoop sys cmd (d :: rest) seen = some (pjoin d cmd) := by
          simp [whichLoop, normcase, hm, hacc]
        rw [hstep, List.find?_cons_of_pos _ (by simp [hacc])]
        simp
      · have hacc' : accessCheck sys (pjoin d cmd) = false := by
          cases hb : accessCheck sys (pjoin d cmd)
          · rfl
          · exact absurd hb hacc
        have hstep : whichLoop sys cmd (d :: rest) seen
            = whichLoop sys cmd rest (d :: seen) := by
          simp [whichLoop, normcase, hm, hacc']
        have hext : ∀ x ∈ d :: seen, accessCheck sys (pjoin x cmd) = false := by
          intro x hx
          rcases List.mem_cons.mp hx with hx1 | hx2
          · rw [hx1]; exact hacc'
          · exact hseen x hx2
        rw [hstep, ih (d :: seen) hext, List.find?_cons_of_neg _ (by simp [hacc'])]

/-- Claim C9: for every non-empty search-path string and bare command name,
the resolver splits the string on `':'` preserving order, deduplicates
directories by their `normcase` key (the identity here, and semantically
invisible: skipping an already-tried directory cannot change the first
match), and returns the join of the first directory in order whose join
with the command exists and is executable, or not-found when none matches. -/
theorem which_search_first_match (sys : Sys) (cmd p : String)
    (h1 : dirname cmd = "") (h2 : p ≠ "") :
    which sys cmd (some p)
      = ((splitSep ':' p).find? (fun d => accessCheck sys (pjoin d cmd))).map
          (fun d => pjoin d cmd) := by
  have h0 : ∀ d ∈ ([] : List String), accessCheck sys (pjoin d cmd) = false := by
    intro d hd; simp at hd
  have hw : which sys cmd (some p) = whichLoop sys cmd (splitSep ':' p) [] := by
    simp [which, h1, h2]
  rw [hw]
  exact whichLoop_find sys cmd (splitSep ':' p) [] h0

/-- Witness for C9 at `sysD` with the search path `/bin:/usr/bin`. -/
theorem which_search_first_match_witness :
    which sysD "sh" (some "/bin:/usr/bin") = some "/bin/sh" :=
  (which_search_first_match sysD "sh" "/bin:/usr/bin" (by decide)
    (by decide)).trans (by decide)

/-- Claim C10: an empty-string march tag behaves exactly like an absent one
at every use site: an explicit `""` does not override a discovered tag, a
boot token exactly `"march="` yields the discovered tag `""`, `run` behaves
identically with tag `""` and with no tag (both for the branch taken and
for the full exec outcome, on either source of the tag), and when the
resolved program is truthy the branch taken with tag `""` is the no-tag
warning branch, skipping the variant lookup. -/
theorem empty_tag_as_absent (sys : Sys) (d : Option String)
    (toks : List String) (a0 : String) (rest : List String)
    (h : pyTruthy (resolveProg sys a0) = true) :
    pyOr (some "") d = d
    ∧ scanKernelMarch ("march=" :: toks) = some ""
    ∧ runBranch sys (some "") a0 = runBranch sys none a0
    ∧ runResult sys (some "") none a0 rest = runResult sys none none a0 rest
    ∧ runResult sys none (some "") a0 rest = runResult sys none none a0 rest
    ∧ runBranch sys (some "") a0 = TagPath.noTag := by
  refine ⟨rfl, rfl, rfl, rfl, rfl, ?_⟩
  simp only [runBranch, h]
  rfl

/-- Witness for C10 in `sysX`, where `/usr/bin/prog` resolves. -/
theorem empty_tag_as_absent_witness :
    runBranch sysX (some "") "/usr/bin/prog" = TagPath.noTag
    ∧ scanKernelMarch ["march="] = some "" :=
  ⟨(empty_tag_as_absent sysX none [] "/usr/bin/prog" [] (by decide)).2.2.2.2.2,
   (empty_tag_as_absent sysX none [] "/usr/bin/prog" [] (by decide)).2.1⟩

end March
